import Mathlib

set_option maxRecDepth 40000

/-
  A shallow embedding of blacksheep/server/gzip.py: the gzip compression
  middleware (GzipMiddleware), its decision predicate should_handle, the
  request/response rewriting performed by __call__, and the registration
  helper use_gzip_compression.

  Byte strings are modelled as lists of byte values (List Nat); headers as
  ordered lists of name/value pairs.  The gzip codec itself is an external
  collaborator and is modelled as an arbitrary function parameter
  compress : Bytes -> Int -> Bytes.
-/

namespace GzipSpec

/-- Python `bytes` values, as lists of byte values. -/
abbrev Bytes := List Nat

/-- ASCII lower-casing of a single byte, as Python bytes.lower() does per byte. -/
def lowerByte (b : Nat) : Nat :=
  if 65 ≤ b ∧ b ≤ 90 then b + 32 else b

/-- Python bytes.lower(): ASCII lower-casing byte by byte. -/
def lowerBytes (bs : Bytes) : Bytes := bs.map lowerByte

/-- Whether `needle` is a leading segment of `hay` (helper for substring test). -/
def prefixOfB : Bytes → Bytes → Bool
  | [], _ => true
  | _ :: _, [] => false
  | a :: as, b :: bs => (a == b) && prefixOfB as bs

/-- Python `needle in hay` on bytes: substring containment. -/
def substrB (needle : Bytes) : Bytes → Bool
  | [] => prefixOfB needle []
  | b :: rest => prefixOfB needle (b :: rest) || substrB needle rest

/-- The byte string "gzip". -/
def gzipBytes : Bytes := [103, 122, 105, 112]

/-- The header name "accept-encoding". -/
def acceptEncodingName : Bytes := [97, 99, 99, 101, 112, 116, 45, 101, 110, 99, 111, 100, 105, 110, 103]

/-- The header name "content-encoding". -/
def contentEncodingName : Bytes := [99, 111, 110, 116, 101, 110, 116, 45, 101, 110, 99, 111, 100, 105, 110, 103]

/-- The header name "content-length". -/
def contentLengthName : Bytes := [99, 111, 110, 116, 101, 110, 116, 45, 108, 101, 110, 103, 116, 104]

/-- The decimal ASCII representation of a natural number, as a byte string. -/
def decimalAscii (n : Nat) : Bytes :=
  (Nat.toDigits 10 n).map Char.toNat

/-- A response content object: a declared content type and a byte body,
either possibly absent (blacksheep's Content, seen through the fields the
middleware reads: content.type and content.body). -/
structure Content where
  type : Option Bytes
  body : Option Bytes
deriving DecidableEq

/-- A response: status, ordered header list, optional content.  Modelled from
the spec: the Response data structure is an external collaborator exposing an
optional content payload and header mutation by name. -/
structure Response where
  status : Nat
  headers : List (Bytes × Bytes)
  content : Option Content
deriving DecidableEq

/-- A request, of which the middleware only reads the headers (the source
guards `request.headers is not None`, hence the Option). -/
structure Request where
  headers : Option (List (Bytes × Bytes))
deriving DecidableEq

/-- Modelled from the spec: case-insensitive header lookup returning the first
value for a given header name, or absent (blacksheep Headers.get_single is not
part of the analysed source). -/
def get_single (hs : List (Bytes × Bytes)) (name : Bytes) : Option Bytes :=
  (hs.find? (fun p => lowerBytes p.1 == lowerBytes name)).map (fun p => p.2)

/-- All values carried by headers with the given (case-insensitive) name, in order. -/
def headerValues (hs : List (Bytes × Bytes)) (name : Bytes) : List Bytes :=
  (hs.filter (fun p => lowerBytes p.1 == lowerBytes name)).map (fun p => p.2)

/-- Modelled from the spec: set/overwrite a header to a single value (used by
the Header Rewriter for content-length: any prior value is dropped). -/
def setHeader (hs : List (Bytes × Bytes)) (name value : Bytes) : List (Bytes × Bytes) :=
  hs.filter (fun p => !(lowerBytes p.1 == lowerBytes name)) ++ [(name, value)]

/-- Modelled from the spec: Response.add_header appends a name/value pair,
not replacing any prior declaration of the same name. -/
def add_header (r : Response) (name value : Bytes) : Response :=
  { r with headers := r.headers ++ [(name, value)] }

/-- Modelled from the spec: Response.with_content replaces the response's
content with the given content object, and the rewritten response has its
content-length header set/overwritten to the decimal ASCII byte length of the
new body, keeping it consistent with the body seen by transport layers. -/
def with_content (r : Response) (c : Content) : Response :=
  { r with
    content := some c,
    headers := setHeader r.headers contentLengthName (decimalAscii (c.body.getD []).length) }

/-- The GzipMiddleware configuration as read at request time: min_size,
comp_level and the normalized handled_types list. -/
structure GzipMiddleware where
  min_size : Int
  comp_level : Int
  handled_types : List Bytes
deriving DecidableEq

/-- The byte string "json". -/
def jsonBytes : Bytes := [106, 115, 111, 110]

/-- The byte string "xml". -/
def xmlBytes : Bytes := [120, 109, 108]

/-- The byte string "yaml". -/
def yamlBytes : Bytes := [121, 97, 109, 108]

/-- The byte string "html". -/
def htmlBytes : Bytes := [104, 116, 109, 108]

/-- The byte string "text/plain". -/
def textPlainBytes : Bytes := [116, 101, 120, 116, 47, 112, 108, 97, 105, 110]

/-- The byte string "application/javascript". -/
def applicationJavascriptBytes : Bytes :=
  [97, 112, 112, 108, 105, 99, 97, 116, 105, 111, 110, 47,
   106, 97, 118, 97, 115, 99, 114, 105, 112, 116]

/-- The byte string "text/css". -/
def textCssBytes : Bytes := [116, 101, 120, 116, 47, 99, 115, 115]

/-- The byte string "text/csv". -/
def textCsvBytes : Bytes := [116, 101, 120, 116, 47, 99, 115, 118]

/-- The class-level default handled_types list of GzipMiddleware. -/
def defaultHandledTypes : List Bytes :=
  [ jsonBytes, xmlBytes, yamlBytes, htmlBytes, textPlainBytes,
    applicationJavascriptBytes, textCssBytes, textCsvBytes ]

/-- A GzipMiddleware constructed with every argument left at its default:
min_size 500, comp_level 5 and the class-level handled_types. -/
def defaultMiddleware : GzipMiddleware :=
  { min_size := 500, comp_level := 5, handled_types := defaultHandledTypes }

/-- Inner helper _is_handled_type of should_handle: lower-case the content
type and test whether any configured entry occurs in it as a substring. -/
def is_handled_type (m : GzipMiddleware) (content_type : Bytes) : Bool :=
  m.handled_types.any (fun t => substrB t (lowerBytes content_type))

/-- A Python exception raised by the embedded code: the TypeError from
evaluating `b"gzip" in s` with a str s. -/
inductive PyError where
  | typeError
deriving DecidableEq

instance {ε α : Type} [DecidableEq ε] [DecidableEq α] : DecidableEq (Except ε α) := fun x y =>
  match x, y with
  | Except.ok a, Except.ok b =>
    if h : a = b then isTrue (congrArg Except.ok h)
    else isFalse (fun he => h (Except.ok.inj he))
  | Except.error a, Except.error b =>
    if h : a = b then isTrue (congrArg Except.error h)
    else isFalse (fun he => h (Except.error.inj he))
  | Except.ok _, Except.error _ => isFalse (fun he => Except.noConfusion he)
  | Except.error _, Except.ok _ => isFalse (fun he => Except.noConfusion he)

/-- Inner helper is_handled_encoding of should_handle.  The source evaluates
`request.headers is not None and b"gzip" in (get_single(b"accept-encoding")
or "")`: an absent headers object short-circuits to false, but when the
accept-encoding value is falsy — absent (None) or empty (b"") — the `or`
falls back to the str "", and `b"gzip" in ""` raises TypeError on CPython
(bytes are not allowed as the left operand of `in` on a str); only a
non-empty value reaches the raw-bytes substring test. -/
def is_handled_encoding (req : Request) : Except PyError Bool :=
  match req.headers with
  | none => Except.ok false
  | some hs =>
    match get_single hs acceptEncodingName with
    | none => Except.error PyError.typeError
    | some v =>
      if v = [] then Except.error PyError.typeError
      else Except.ok (substrB gzipBytes v)

/-- Inner helper is_handled_response_content of should_handle: response and
content present, body present and strictly longer than min_size, content type
present and handled. -/
def is_handled_response_content (m : GzipMiddleware) (resp : Option Response) : Bool :=
  match resp with
  | none => false
  | some r =>
    match r.content with
    | none => false
    | some c =>
      let body_pass : Bool :=
        match c.body with
        | none => false
        | some b => (b.length : Int) > m.min_size
      let content_type_pass : Bool :=
        match c.type with
        | none => false
        | some ty => is_handled_type m ty
      body_pass && content_type_pass

/-- GzipMiddleware.should_handle: the source builds the tuple
`(is_handled_encoding(), is_handled_response_content())` eagerly and applies
all(), so a TypeError raised by the encoding gate propagates; otherwise both
gates must pass. -/
def should_handle (m : GzipMiddleware) (req : Request) (resp : Option Response) :
    Except PyError Bool :=
  match is_handled_encoding req with
  | Except.error e => Except.error e
  | Except.ok enc => Except.ok (enc && is_handled_response_content m resp)

/-- GzipMiddleware.__call__, given the (ensured) response produced by the
downstream handler: return it unchanged when it is absent, has no content, or
should_handle returns false; propagate the TypeError when should_handle
raises; otherwise compress the body with the external codec and rewrite
content and headers. -/
def gzipCall (compress : Bytes → Int → Bytes) (m : GzipMiddleware)
    (req : Request) (resp : Option Response) : Except PyError (Option Response) :=
  match resp with
  | none => Except.ok none
  | some r =>
    match r.content with
    | none => Except.ok (some r)
    | some c =>
      match should_handle m req (some r) with
      | Except.error e => Except.error e
      | Except.ok false => Except.ok (some r)
      | Except.ok true =>
        let compressed_body := compress (c.body.getD []) m.comp_level
        Except.ok (some (add_header
          (with_content r { type := c.type, body := some compressed_body })
          contentEncodingName gzipBytes))

/-- Modelled from the spec: the host application seen by
use_gzip_compression, an ordered list of middlewares plus arbitrary further
state untouched by registration. -/
structure App (α : Type) where
  middlewares : List GzipMiddleware
  extra : α

/-- use_gzip_compression: construct a default middleware when none is given,
append it to app.middlewares, and return it. -/
def use_gzip_compression {α : Type} (app : App α) (handler : Option GzipMiddleware) :
    GzipMiddleware × App α :=
  let h := match handler with
    | none => defaultMiddleware
    | some h => h
  (h, { app with middlewares := app.middlewares ++ [h] })

/-
  Construction-time model.  GzipMiddleware.__init__ accepts handled_types as
  an iterable whose entries may be Python str, bytes, or anything else; the
  _normalize_types helper encodes str entries to ASCII bytes and passes every
  other entry through unchanged.  Python values are modelled as PyVal, and
  raising as Except.
-/

/-- A Python value passed as a handled_types entry: a text string (codepoint
list), a bytes object, or any other object (tagged). -/
inductive PyVal where
  | pyStr (cs : List Nat)
  | pyBytes (bs : Bytes)
  | pyOther (tag : Nat)
deriving DecidableEq

/-- Python str.encode("ascii"): succeeds exactly on codepoints below 128,
otherwise raises. -/
def encodeAscii (cs : List Nat) : Except Unit Bytes :=
  if cs.all (fun c => c < 128) then Except.ok cs else Except.error ()

/-- GzipMiddleware._normalize_types: encode str entries to ASCII, append any
non-str entry unchanged (whatever it is).  The only way it raises is a
non-ASCII str. -/
def normalize_types : List PyVal → Except Unit (List PyVal)
  | [] => Except.ok []
  | PyVal.pyStr cs :: rest => do
      let b ← encodeAscii cs
      let r ← normalize_types rest
      Except.ok (PyVal.pyBytes b :: r)
  | v :: rest => do
      let r ← normalize_types rest
      Except.ok (v :: r)

/-- The handled_types part of GzipMiddleware.__init__: with no argument the
instance attribute stays unset (class attribute is used); otherwise the
normalized list is stored. -/
def initHandled (arg : Option (List PyVal)) : Except Unit (Option (List PyVal)) :=
  match arg with
  | none => Except.ok none
  | some types => do
      let r ← normalize_types types
      Except.ok (some r)

/-
  Attribute/aliasing model for the class-level handled_types default.
  GzipMiddleware.handled_types is a class attribute holding one list object;
  __init__ only creates an instance attribute when an explicit argument is
  given.  Reading inst.handled_types falls back to the class attribute when
  the instance attribute is unset, and an in-place mutation
  (inst.handled_types.append(x)) mutates whichever list the read resolves to.
-/

/-- The mutable state: the class-level handled_types list and, per created
instance, an optional instance-level handled_types list. -/
structure PyState where
  classHandled : List Bytes
  instanceAttrs : List (Option (List Bytes))
deriving DecidableEq

/-- Construct an instance: with no handled_types argument the instance
attribute is unset; with one, a fresh normalized list is stored.  Returns the
new state and the instance's index. -/
def newInstance (s : PyState) (arg : Option (List Bytes)) : PyState × Nat :=
  ({ s with instanceAttrs := s.instanceAttrs ++ [arg] }, s.instanceAttrs.length)

/-- Python attribute read inst.handled_types: the instance attribute when
set, else the class attribute. -/
def getHandled (s : PyState) (i : Nat) : List Bytes :=
  match s.instanceAttrs[i]? with
  | some (some l) => l
  | some none => s.classHandled
  | none => []

/-- Python inst.handled_types.append(t): mutate in place the list object the
attribute read resolves to — the class-level list when the instance attribute
is unset. -/
def appendHandled (s : PyState) (i : Nat) (t : Bytes) : PyState :=
  match s.instanceAttrs[i]? with
  | some (some l) => { s with instanceAttrs := s.instanceAttrs.set i (some (l ++ [t])) }
  | _ => { s with classHandled := s.classHandled ++ [t] }

/-
  Input classification used to state the claims (these formalize the
  hypothesis side of the claims, i.e. which requests/responses a claim
  quantifies over; they are not part of the embedded program).
-/

/-- Responses whose body, when one is present at all, has byte length at most
n (absent response/content/body trivially qualifies). -/
def bodyAtMost (resp : Option Response) (n : Int) : Bool :=
  match resp with
  | none => true
  | some r =>
    match r.content with
    | none => true
    | some c =>
      match c.body with
      | none => true
      | some b => (b.length : Int) ≤ n

/-- Responses whose content type, when one is present at all, lower-cased
contains none of the configured handled-type substrings. -/
def typeNotEligible (m : GzipMiddleware) (resp : Option Response) : Bool :=
  match resp with
  | none => true
  | some r =>
    match r.content with
    | none => true
    | some c =>
      match c.type with
      | none => true
      | some ty => !(m.handled_types.any (fun t => substrB t (lowerBytes ty)))

/-- Headers other than content-encoding and content-length, kept in order
(used to state that compression changes nothing else). -/
def otherHeaders (hs : List (Bytes × Bytes)) : List (Bytes × Bytes) :=
  hs.filter (fun p =>
    !(lowerBytes p.1 == lowerBytes contentEncodingName) &&
    !(lowerBytes p.1 == lowerBytes contentLengthName))

/-
  Concrete inputs for witnesses and counterexamples.
-/

/-- The byte string "javascript". -/
def javascriptBytes : Bytes := [106, 97, 118, 97, 115, 99, 114, 105, 112, 116]

/-- The byte string "text/javascript". -/
def textJavascriptBytes : Bytes := [116, 101, 120, 116, 47, 106, 97, 118, 97, 115, 99, 114, 105, 112, 116]

/-- The byte string "image/png". -/
def imagePngBytes : Bytes := [105, 109, 97, 103, 101, 47, 112, 110, 103]

/-- The byte string "gzip, deflate". -/
def gzipDeflateBytes : Bytes := [103, 122, 105, 112, 44, 32, 100, 101, 102, 108, 97, 116, 101]

/-- The byte string "deflate". -/
def deflateBytes : Bytes := [100, 101, 102, 108, 97, 116, 101]

/-- The byte string "br". -/
def brBytes : Bytes := [98, 114]

/-- The byte string "pdf". -/
def pdfBytes : Bytes := [112, 100, 102]

/-- A concrete stand-in for the external gzip codec in closed evaluations:
keeps the first seven bytes. -/
def sampleCompress : Bytes → Int → Bytes := fun b _ => b.take 7

/-- A request advertising "gzip, deflate". -/
def reqGzip : Request := { headers := some [(acceptEncodingName, gzipDeflateBytes)] }

/-- A request advertising only "deflate". -/
def reqDeflate : Request := { headers := some [(acceptEncodingName, deflateBytes)] }

/-- A request with a headers table but no accept-encoding header. -/
def reqNoAccept : Request := { headers := some [] }

/-- A request whose accept-encoding header is present but empty. -/
def reqEmptyAccept : Request := { headers := some [(acceptEncodingName, [])] }

/-- A 1000-byte body. -/
def body1000 : Bytes := List.replicate 1000 97

/-- A 1000-byte JSON response with no prior headers. -/
def respJson1000 : Response :=
  { status := 200, headers := [], content := some { type := some jsonBytes, body := some body1000 } }

/-- A 100-byte JSON response (below the default threshold). -/
def respJson100 : Response :=
  { status := 200, headers := [],
    content := some { type := some jsonBytes, body := some (List.replicate 100 97) } }

/-- A 1000-byte PNG response (content type not handled by default). -/
def respPng1000 : Response :=
  { status := 200, headers := [], content := some { type := some imagePngBytes, body := some body1000 } }

/-- A 1000-byte text/javascript response. -/
def respTextJs1000 : Response :=
  { status := 200, headers := [],
    content := some { type := some textJavascriptBytes, body := some body1000 } }

/-- A 1000-byte JSON response that already carries a content-encoding header
(value "br") and a stale content-length header. -/
def respPriorEncoding : Response :=
  { status := 200,
    headers := [(contentEncodingName, brBytes), (contentLengthName, [48])],
    content := some { type := some jsonBytes, body := some body1000 } }

/-- The response the middleware produces from respPriorEncoding under the
sample codec: prior "br" encoding kept, stale content-length overwritten by
"7", "gzip" appended, body replaced by the seven compressed bytes. -/
def respPriorRewritten : Response :=
  { status := 200,
    headers := [(contentEncodingName, brBytes), (contentLengthName, [55]),
                (contentEncodingName, gzipBytes)],
    content := some { type := some jsonBytes, body := some (List.replicate 7 97) } }

/-
  Helper lemmas about filters and header lists.
-/

theorem filter_of_filter_not {α : Type} (p : α → Bool) (l : List α) :
    (l.filter (fun a => !(p a))).filter p = [] := by
  induction l with
  | nil => rfl
  | cons a l ih => cases hp : p a <;> simp [List.filter_cons, hp, ih]

theorem filter_of_filter_sub {α : Type} (p q : α → Bool) (l : List α)
    (h : ∀ a, p a = true → q a = true) :
    (l.filter q).filter p = l.filter p := by
  induction l with
  | nil => rfl
  | cons a l ih =>
    cases hq : q a with
    | true => cases hp : p a <;> simp [List.filter_cons, hq, hp, ih]
    | false =>
      have hp : p a = false := by
        cases hp : p a with
        | true => exact absurd (h a hp) (by simp [hq])
        | false => rfl
      simp [List.filter_cons, hq, hp, ih]

theorem headerValues_append (hs1 hs2 : List (Bytes × Bytes)) (n : Bytes) :
    headerValues (hs1 ++ hs2) n = headerValues hs1 n ++ headerValues hs2 n := by
  simp [headerValues, List.filter_append]

theorem headerValues_setHeader_self (hs : List (Bytes × Bytes)) (n v : Bytes) :
    headerValues (setHeader hs n v) n = [v] := by
  unfold headerValues setHeader
  rw [List.filter_append, filter_of_filter_not (fun p => lowerBytes p.1 == lowerBytes n) hs]
  simp [List.filter_cons]

theorem headerValues_setHeader_other (hs : List (Bytes × Bytes)) (n v n' : Bytes)
    (h : lowerBytes n' ≠ lowerBytes n) :
    headerValues (setHeader hs n v) n' = headerValues hs n' := by
  unfold headerValues setHeader
  rw [List.filter_append,
    filter_of_filter_sub (fun p => lowerBytes p.1 == lowerBytes n')
      (fun p => !(lowerBytes p.1 == lowerBytes n)) hs]
  · have hne : (lowerBytes n == lowerBytes n') = false := by
      simp only [beq_eq_false_iff_ne, ne_eq]
      intro he
      exact h he.symm
    simp [List.filter_cons, hne]
  · intro a ha
    have : lowerBytes a.1 = lowerBytes n' := by simpa using ha
    simp [this, h]

/-- When should_handle returns false, __call__ returns the handler's
response as is. -/
theorem gzipCall_not_handled (compress : Bytes → Int → Bytes) (m : GzipMiddleware)
    (req : Request) (resp : Option Response)
    (h : should_handle m req resp = Except.ok false) :
    gzipCall compress m req resp = Except.ok resp := by
  cases resp with
  | none => rfl
  | some r =>
    cases hc : r.content with
    | none => simp [gzipCall, hc]
    | some c => simp [gzipCall, hc, h]

/-- When should_handle raises on a content-bearing response, __call__
propagates the error. -/
theorem gzipCall_error (compress : Bytes → Int → Bytes) (m : GzipMiddleware)
    (req : Request) (r : Response) (c : Content) (e : PyError)
    (hc : r.content = some c)
    (hs : should_handle m req (some r) = Except.error e) :
    gzipCall compress m req (some r) = Except.error e := by
  simp [gzipCall, hc, hs]

/-- When should_handle returns true, __call__ returns the rewritten
response. -/
theorem gzipCall_handled (compress : Bytes → Int → Bytes) (m : GzipMiddleware)
    (req : Request) (r : Response) (c : Content)
    (hc : r.content = some c)
    (hsh : should_handle m req (some r) = Except.ok true) :
    gzipCall compress m req (some r) =
      Except.ok (some (add_header
        (with_content r { type := c.type, body := some (compress (c.body.getD []) m.comp_level) })
        contentEncodingName gzipBytes)) := by
  simp [gzipCall, hc, hsh]

/-- When the response-content gate fails, should_handle never yields true —
it yields false whenever the encoding gate returns at all (it may instead
raise TypeError on an absent or empty accept-encoding value) — and every
normal return of __call__ is the handler's response unchanged. -/
theorem blocks_of_content_gate (compress : Bytes → Int → Bytes) (m : GzipMiddleware)
    (req : Request) (resp : Option Response)
    (hcont : is_handled_response_content m resp = false) :
    (∀ v : Bool, is_handled_encoding req = Except.ok v →
      should_handle m req resp = Except.ok false) ∧
    (∀ b : Bool, should_handle m req resp = Except.ok b → b = false) ∧
    (∀ r', gzipCall compress m req resp = Except.ok r' → r' = resp) := by
  have h1 : ∀ v : Bool, is_handled_encoding req = Except.ok v →
      should_handle m req resp = Except.ok false := by
    intro v hv
    simp [should_handle, hv, hcont]
  have h2 : ∀ b : Bool, should_handle m req resp = Except.ok b → b = false := by
    intro b hb
    cases he : is_handled_encoding req with
    | error e =>
      have hse : should_handle m req resp = Except.error e := by
        simp [should_handle, he]
      rw [hse] at hb
      exact absurd hb (fun hx => Except.noConfusion hx)
    | ok v =>
      rw [h1 v he] at hb
      exact (Except.ok.inj hb).symm
  refine ⟨h1, h2, ?_⟩
  intro r' hr
  cases resp with
  | none =>
    exact (Except.ok.inj hr).symm
  | some r =>
    cases hc : r.content with
    | none =>
      have hgc : gzipCall compress m req (some r) = Except.ok (some r) := by
        simp [gzipCall, hc]
      rw [hgc] at hr
      exact (Except.ok.inj hr).symm
    | some c =>
      cases hs : should_handle m req (some r) with
      | error e =>
        rw [gzipCall_error compress m req r c e hc hs] at hr
        exact absurd hr (fun hx => Except.noConfusion hx)
      | ok b =>
        have hb := h2 b hs
        subst hb
        rw [gzipCall_not_handled compress m req (some r) hs] at hr
        exact (Except.ok.inj hr).symm

/-- The response rewrite performed by __call__ sets the content-length
values to exactly the decimal ASCII byte length of the new body. -/
theorem rewritten_headers_length (r : Response) (c : Content) :
    headerValues (add_header (with_content r c) contentEncodingName gzipBytes).headers
      contentLengthName = [decimalAscii (c.body.getD []).length] := by
  have hne : (lowerBytes contentEncodingName == lowerBytes contentLengthName) = false := by decide
  show headerValues
      (setHeader r.headers contentLengthName (decimalAscii (c.body.getD []).length)
        ++ [(contentEncodingName, gzipBytes)]) contentLengthName = _
  rw [headerValues_append, headerValues_setHeader_self]
  simp [headerValues, List.filter_cons, hne]

/-- The response rewrite performed by __call__ appends "gzip" to the
content-encoding values and touches no other content-encoding header, so an
input without one ends with exactly ["gzip"]. -/
theorem rewritten_headers_encoding (r : Response) (c : Content)
    (hce : headerValues r.headers contentEncodingName = []) :
    headerValues (add_header (with_content r c) contentEncodingName gzipBytes).headers
      contentEncodingName = [gzipBytes] := by
  have hne : lowerBytes contentEncodingName ≠ lowerBytes contentLengthName := by decide
  show headerValues
      (setHeader r.headers contentLengthName (decimalAscii (c.body.getD []).length)
        ++ [(contentEncodingName, gzipBytes)]) contentEncodingName = _
  rw [headerValues_append, headerValues_setHeader_other _ _ _ _ hne, hce]
  simp [headerValues, List.filter_cons]

/-- The response rewrite performed by __call__ always leaves "gzip" among
the content-encoding values. -/
theorem rewritten_headers_gzip_mem (r : Response) (c : Content) :
    gzipBytes ∈ headerValues
      (add_header (with_content r c) contentEncodingName gzipBytes).headers
      contentEncodingName := by
  show gzipBytes ∈ headerValues
      (setHeader r.headers contentLengthName (decimalAscii (c.body.getD []).length)
        ++ [(contentEncodingName, gzipBytes)]) contentEncodingName
  rw [headerValues_append]
  refine List.mem_append_right _ ?_
  simp [headerValues, List.filter_cons]

/-
  The claims.
-/

/-- C2: the claim requires an absent accept-encoding header to be treated
as false, never raised as an error, but the code's fallback
`b"gzip" in (... or "")` mixes bytes and str, so when the header table is
present and the accept-encoding value is absent or empty the encoding gate
raises TypeError, and should_handle and __call__ propagate it even for a
large JSON response; a missing header table, and a present non-empty value
lacking "gzip" (here "deflate"), are handled gracefully as false — the
failure is exactly the absent/empty-value path the claim rules out. -/
theorem encoding_gate_raises_evidence :
    is_handled_encoding reqNoAccept = Except.error PyError.typeError ∧
    is_handled_encoding reqEmptyAccept = Except.error PyError.typeError ∧
    should_handle defaultMiddleware reqNoAccept (some respJson1000) =
      Except.error PyError.typeError ∧
    gzipCall sampleCompress defaultMiddleware reqNoAccept (some respJson1000) =
      Except.error PyError.typeError ∧
    is_handled_encoding { headers := none } = Except.ok false ∧
    is_handled_encoding reqDeflate = Except.ok false ∧
    should_handle defaultMiddleware reqDeflate (some respJson1000) = Except.ok false ∧
    gzipCall sampleCompress defaultMiddleware reqDeflate (some respJson1000) =
      Except.ok (some respJson1000) := by decide

/-- C3: whenever the response's body — when response, content and body are
present at all — has byte length at most min_size, compression is never
applied, regardless of the request's headers and of the content type:
should_handle returns false whenever the encoding gate returns at all and
never returns true, and every normal return of __call__ is the handler's
response unchanged (on an absent or empty accept-encoding value the
encoding gate raises instead of returning, and no compression happens then
either). -/
theorem size_threshold_blocks_compression (compress : Bytes → Int → Bytes)
    (m : GzipMiddleware) (req : Request) (resp : Option Response)
    (h : bodyAtMost resp m.min_size = true) :
    (∀ v : Bool, is_handled_encoding req = Except.ok v →
      should_handle m req resp = Except.ok false) ∧
    (∀ b : Bool, should_handle m req resp = Except.ok b → b = false) ∧
    (∀ r', gzipCall compress m req resp = Except.ok r' → r' = resp) := by
  have hcont : is_handled_response_content m resp = false := by
    cases resp with
    | none => rfl
    | some r =>
      cases hc : r.content with
      | none => simp [is_handled_response_content, hc]
      | some c =>
        cases hb : c.body with
        | none => simp [is_handled_response_content, hc, hb]
        | some b =>
          have hle : (b.length : Int) ≤ m.min_size := by
            have hh := h
            simp only [bodyAtMost, hc, hb] at hh
            exact of_decide_eq_true hh
          have hdec : decide ((b.length : Int) > m.min_size) = false :=
            decide_eq_false (by omega)
          simp [is_handled_response_content, hc, hb, hdec]
  exact blocks_of_content_gate compress m req resp hcont

/-- C3 witness: a 100-byte JSON response is below the default threshold of
500 and yields should_handle false and an unchanged return even though the
request accepts gzip. -/
theorem size_threshold_blocks_compression_witness :
    (∀ v : Bool, is_handled_encoding reqGzip = Except.ok v →
      should_handle defaultMiddleware reqGzip (some respJson100) = Except.ok false) ∧
    (∀ b : Bool, should_handle defaultMiddleware reqGzip (some respJson100) = Except.ok b →
      b = false) ∧
    (∀ r', gzipCall sampleCompress defaultMiddleware reqGzip (some respJson100) =
      Except.ok r' → r' = some respJson100) :=
  size_threshold_blocks_compression sampleCompress defaultMiddleware reqGzip
    (some respJson100) (by decide)

/-- C4 counterexample: a 1000-byte image/png response — its content type
contains none of the default handled-type substrings — paired with a
request whose accept-encoding header is present but empty makes
should_handle raise TypeError rather than return false, refuting the
claim's "should_handle returns false". -/
theorem type_gate_counterexample :
    is_handled_type defaultMiddleware imagePngBytes = false ∧
    should_handle defaultMiddleware reqEmptyAccept (some respPng1000) =
      Except.error PyError.typeError ∧
    ¬ (should_handle defaultMiddleware reqEmptyAccept (some respPng1000) =
      Except.ok false) := by decide

/-- C4 amended: whenever the response's content type — when response,
content and type are present at all — lower-cased contains none of the
configured handled-type substrings, compression is never applied:
should_handle returns false whenever the encoding gate returns at all (on
an absent or empty accept-encoding value it raises TypeError instead),
never returns true, and every normal return of __call__ is the handler's
response unchanged. -/
theorem type_gate_blocks_compression (compress : Bytes → Int → Bytes)
    (m : GzipMiddleware) (req : Request) (resp : Option Response)
    (h : typeNotEligible m resp = true) :
    (∀ v : Bool, is_handled_encoding req = Except.ok v →
      should_handle m req resp = Except.ok false) ∧
    (∀ b : Bool, should_handle m req resp = Except.ok b → b = false) ∧
    (∀ r', gzipCall compress m req resp = Except.ok r' → r' = resp) := by
  have hcont : is_handled_response_content m resp = false := by
    cases resp with
    | none => rfl
    | some r =>
      cases hc : r.content with
      | none => simp [is_handled_response_content, hc]
      | some c =>
        cases ht : c.type with
        | none => simp [is_handled_response_content, hc, ht]
        | some ty =>
          have hna : m.handled_types.any (fun t => substrB t (lowerBytes ty)) = false := by
            have hh := h
            simp only [typeNotEligible, hc, ht] at hh
            simpa using hh
          simp [is_handled_response_content, hc, ht, is_handled_type, hna]
  exact blocks_of_content_gate compress m req resp hcont

/-- C4 amended witness: the 1000-byte image/png response with a
gzip-accepting request yields should_handle false and an unchanged
return. -/
theorem type_gate_blocks_compression_witness :
    (∀ v : Bool, is_handled_encoding reqGzip = Except.ok v →
      should_handle defaultMiddleware reqGzip (some respPng1000) = Except.ok false) ∧
    (∀ b : Bool, should_handle defaultMiddleware reqGzip (some respPng1000) = Except.ok b →
      b = false) ∧
    (∀ r', gzipCall sampleCompress defaultMiddleware reqGzip (some respPng1000) =
      Except.ok r' → r' = some respPng1000) :=
  type_gate_blocks_compression sampleCompress defaultMiddleware reqGzip
    (some respPng1000) (by decide)

/-- C1 counterexample: compression is applied to a large JSON response that
already carries a content-encoding header (value "br"); the middleware only
appends "gzip", so the final response's content-encoding values are
["br", "gzip"], not "gzip" alone. -/
theorem compression_headers_counterexample :
    should_handle defaultMiddleware reqGzip (some respPriorEncoding) = Except.ok true ∧
    gzipCall sampleCompress defaultMiddleware reqGzip (some respPriorEncoding) =
      Except.ok (some respPriorRewritten) ∧
    headerValues respPriorRewritten.headers contentEncodingName = [brBytes, gzipBytes] ∧
    ¬ ([brBytes, gzipBytes] = [gzipBytes]) := by decide

/-- C1 amended: when compression is applied, the content-length header is
set — overwriting any prior value — to the decimal ASCII byte length of the
compressed body, and "gzip" is appended as a content-encoding value; when
the handler's response carried no content-encoding header of its own, the
final content-encoding values are therefore exactly ["gzip"]. -/
theorem compression_headers_amended (compress : Bytes → Int → Bytes)
    (m : GzipMiddleware) (req : Request) (r : Response) (c : Content)
    (hc : r.content = some c)
    (hsh : should_handle m req (some r) = Except.ok true)
    (hce : headerValues r.headers contentEncodingName = []) :
    ∃ r', gzipCall compress m req (some r) = Except.ok (some r') ∧
      headerValues r'.headers contentLengthName =
        [decimalAscii (compress (c.body.getD []) m.comp_level).length] ∧
      headerValues r'.headers contentEncodingName = [gzipBytes] :=
  ⟨_, gzipCall_handled compress m req r c hc hsh,
    rewritten_headers_length r _,
    rewritten_headers_encoding r _ hce⟩

/-- C1 amended witness: the large JSON response with no prior headers gets
content-length "7" (the sample codec keeps seven bytes) and content-encoding
exactly ["gzip"]. -/
theorem compression_headers_amended_witness :
    ∃ r', gzipCall sampleCompress defaultMiddleware reqGzip (some respJson1000) =
      Except.ok (some r') ∧
      headerValues r'.headers contentLengthName =
        [decimalAscii (sampleCompress body1000 5).length] ∧
      headerValues r'.headers contentEncodingName = [gzipBytes] :=
  compression_headers_amended sampleCompress defaultMiddleware reqGzip respJson1000
    { type := some jsonBytes, body := some body1000 } rfl (by decide) rfl

/-- C6 counterexample: a gzip-eligible JSON response paired with a request
whose accept-encoding header is present but empty makes the invocation
raise the TypeError from the encoding gate — a third outcome in which no
response is returned at all, neither unchanged nor compressed. -/
theorem response_dichotomy_counterexample :
    gzipCall sampleCompress defaultMiddleware reqEmptyAccept (some respJson1000) =
      Except.error PyError.typeError ∧
    ¬ (gzipCall sampleCompress defaultMiddleware reqEmptyAccept (some respJson1000) =
      Except.ok (some respJson1000)) := by decide

/-- C6 amended: every invocation ends in exactly one of three states:
the handler's response returned unchanged (always the case when it is
absent, has no content, or should_handle returns false), the compressed
rewrite — should_handle returned true and the result carries the compressed
body, a content-length equal to its exact byte length and a "gzip"
content-encoding value — or the TypeError propagated from the encoding
gate, which can only happen for a content-bearing response; whenever a
response is returned at all it is in one of the two claimed states, and no
partially-applied state is ever visible. -/
theorem response_outcomes_amended (compress : Bytes → Int → Bytes) (m : GzipMiddleware)
    (req : Request) (resp : Option Response) :
    gzipCall compress m req resp = Except.ok resp ∨
    (should_handle m req resp = Except.ok true ∧
      ∃ r c r', resp = some r ∧ r.content = some c ∧
        gzipCall compress m req resp = Except.ok (some r') ∧
        r'.content = some ⟨c.type, some (compress (c.body.getD []) m.comp_level)⟩ ∧
        headerValues r'.headers contentLengthName =
          [decimalAscii (compress (c.body.getD []) m.comp_level).length] ∧
        gzipBytes ∈ headerValues r'.headers contentEncodingName) ∨
    (gzipCall compress m req resp = Except.error PyError.typeError ∧
      should_handle m req resp = Except.error PyError.typeError ∧
      ∃ r c, resp = some r ∧ r.content = some c) := by
  cases resp with
  | none => exact Or.inl rfl
  | some r =>
    cases hc : r.content with
    | none => exact Or.inl (by simp [gzipCall, hc])
    | some c =>
      cases hsh : should_handle m req (some r) with
      | error e =>
        cases e
        exact Or.inr (Or.inr
          ⟨gzipCall_error compress m req r c PyError.typeError hc hsh, rfl, r, c, rfl, hc⟩)
      | ok b =>
        cases b with
        | false => exact Or.inl (gzipCall_not_handled compress m req (some r) hsh)
        | true =>
          exact Or.inr (Or.inl ⟨rfl, r, c, _, rfl, hc,
            gzipCall_handled compress m req r c hc hsh, rfl,
            rewritten_headers_length r _,
            rewritten_headers_gzip_mem r _⟩)

/-- C7: when compression is applied, the rewritten response keeps the
original declared content type and status, every header other than
content-encoding and content-length is unchanged, and only the body bytes
are replaced by the compressed ones. -/
theorem compression_preserves_rest (compress : Bytes → Int → Bytes)
    (m : GzipMiddleware) (req : Request) (r : Response) (c : Content)
    (hc : r.content = some c)
    (hsh : should_handle m req (some r) = Except.ok true) :
    ∃ r', gzipCall compress m req (some r) = Except.ok (some r') ∧
      r'.status = r.status ∧
      (∃ c', r'.content = some c' ∧ c'.type = c.type ∧
        c'.body = some (compress (c.body.getD []) m.comp_level)) ∧
      otherHeaders r'.headers = otherHeaders r.headers := by
  refine ⟨_, gzipCall_handled compress m req r c hc hsh, rfl, ⟨_, rfl, rfl, rfl⟩, ?_⟩
  have hsub : ∀ p : Bytes × Bytes,
      (!(lowerBytes p.1 == lowerBytes contentEncodingName) &&
       !(lowerBytes p.1 == lowerBytes contentLengthName)) = true →
      (!(lowerBytes p.1 == lowerBytes contentLengthName)) = true := by
    intro p hp
    cases hq : (!(lowerBytes p.1 == lowerBytes contentLengthName)) with
    | true => rfl
    | false =>
      rw [hq, Bool.and_false] at hp
      exact absurd hp (by simp)
  have h1 : (lowerBytes contentLengthName == lowerBytes contentLengthName) = true := by decide
  have h2 : (lowerBytes contentEncodingName == lowerBytes contentEncodingName) = true := by decide
  show otherHeaders
      ((r.headers.filter (fun p => !(lowerBytes p.1 == lowerBytes contentLengthName))
        ++ [(contentLengthName,
             decimalAscii (compress (c.body.getD []) m.comp_level).length)])
        ++ [(contentEncodingName, gzipBytes)]) = otherHeaders r.headers
  unfold otherHeaders
  rw [List.filter_append, List.filter_append, filter_of_filter_sub _ _ _ hsub]
  simp [List.filter_cons, h1, h2]

/-- C7 witness: for the large JSON response, the rewrite keeps status 200
and the json content type, replaces the body with the compressed bytes, and
leaves the (empty) set of other headers unchanged. -/
theorem compression_preserves_rest_witness :
    ∃ r', gzipCall sampleCompress defaultMiddleware reqGzip (some respJson1000) =
      Except.ok (some r') ∧
      r'.status = respJson1000.status ∧
      (∃ c', r'.content = some c' ∧ c'.type = some jsonBytes ∧
        c'.body = some (sampleCompress body1000 5)) ∧
      otherHeaders r'.headers = otherHeaders respJson1000.headers :=
  compression_preserves_rest sampleCompress defaultMiddleware reqGzip respJson1000
    { type := some jsonBytes, body := some body1000 } rfl (by decide)

/-- C5 counterexample: "text/javascript" contains the substring
"javascript", yet it is not an eligible content type under the default
configuration (the configured entry is the full "application/javascript"),
so a large text/javascript response to a gzip-accepting request is not
compressed. -/
theorem default_types_counterexample :
    substrB javascriptBytes (lowerBytes textJavascriptBytes) = true ∧
    is_handled_type defaultMiddleware textJavascriptBytes = false ∧
    should_handle defaultMiddleware reqGzip (some respTextJs1000) = Except.ok false ∧
    gzipCall sampleCompress defaultMiddleware reqGzip (some respTextJs1000) =
      Except.ok (some respTextJs1000) := by decide

/-- C5 amended: the default handled types are exactly the eight byte
strings json, xml, yaml, html, text/plain, application/javascript,
text/css, text/csv, and a content type is eligible by default precisely
when its lower-cased form contains one of those exact byte strings. -/
theorem default_types_amended :
    defaultMiddleware.handled_types =
      [jsonBytes, xmlBytes, yamlBytes, htmlBytes, textPlainBytes,
       applicationJavascriptBytes, textCssBytes, textCsvBytes] ∧
    ∀ ct : Bytes, is_handled_type defaultMiddleware ct =
      (substrB jsonBytes (lowerBytes ct) || (substrB xmlBytes (lowerBytes ct) ||
       (substrB yamlBytes (lowerBytes ct) || (substrB htmlBytes (lowerBytes ct) ||
       (substrB textPlainBytes (lowerBytes ct) ||
        (substrB applicationJavascriptBytes (lowerBytes ct) ||
         (substrB textCssBytes (lowerBytes ct) ||
          substrB textCsvBytes (lowerBytes ct)))))))) := by
  refine ⟨rfl, ?_⟩
  intro ct
  simp [is_handled_type, defaultMiddleware, defaultHandledTypes,
    List.any_cons, List.any_nil]

/-- C8: _normalize_types stores entries that are neither str nor bytes
unchanged, so constructing a middleware with such an entry succeeds rather
than raising — contrary to the stated fail-fast intent, nothing in
construction validates the entries. -/
theorem invalid_entries_accepted_at_construction :
    normalize_types [PyVal.pyOther 0] = Except.ok [PyVal.pyOther 0] ∧
    initHandled (some [PyVal.pyOther 0]) = Except.ok (some [PyVal.pyOther 0]) ∧
    initHandled (some [PyVal.pyStr [106], PyVal.pyOther 3, PyVal.pyBytes gzipBytes]) =
      Except.ok (some [PyVal.pyBytes [106], PyVal.pyOther 3, PyVal.pyBytes gzipBytes]) :=
  ⟨rfl, rfl, rfl⟩

/-- C9: the class-level default handled_types list is shared by reference:
with two middlewares constructed with default configuration, an in-place
append of "pdf" through the first one's handled_types attribute changes
both the class default and the list the second instance observes. -/
theorem default_list_shared_evidence :
    let s0 : PyState := { classHandled := defaultHandledTypes, instanceAttrs := [] }
    let p1 := newInstance s0 none
    let p2 := newInstance p1.1 none
    let s3 := appendHandled p2.1 p1.2 pdfBytes
    getHandled s3 p2.2 = defaultHandledTypes ++ [pdfBytes] ∧
    s3.classHandled = defaultHandledTypes ++ [pdfBytes] ∧
    ¬ (getHandled s3 p2.2 = defaultHandledTypes) := by decide

/-- C10: use_gzip_compression appends exactly one element to
app.middlewares — the supplied handler, or a freshly constructed middleware
with all-default configuration when none is supplied — returns that same
appended handler, and leaves everything else about the application
unchanged. -/
theorem use_gzip_compression_registers {α : Type} (app : App α)
    (handler : Option GzipMiddleware) :
    (use_gzip_compression app handler).2.middlewares =
      app.middlewares ++ [(use_gzip_compression app handler).1] ∧
    (use_gzip_compression app handler).2.extra = app.extra ∧
    (use_gzip_compression app handler).1 = handler.getD defaultMiddleware := by
  cases handler with
  | none => exact ⟨rfl, rfl, rfl⟩
  | some h => exact ⟨rfl, rfl, rfl⟩

end GzipSpec
